import Mathlib

/-!
Verification of the websocket transcription relay in `backend/server.py`.

The server exposes one websocket endpoint (`ws_endpoint`).  Per connection it
creates a `KaldiRecognizer(MODEL, SAMPLE_RATE)` with `SetWords(True)` and loops:
receive a message; a binary frame is fed to the recognizer (empty frames are
skipped), emitting one `final` or `partial` event; the text frame `__end__`
flushes a `final` event and breaks; `__reset__` installs a fresh recognizer and
emits a `system` event; other text is ignored.  `WebSocketDisconnect` returns
silently; any other exception closes the socket with code 1011 and the error
message as reason.

We embed the loop shallowly: the recognizer engine is an abstract record of
(possibly failing) operations over an opaque state type, messages received on
the socket form a list, and the loop becomes a fold producing the list of
outbound events, the final engine state and the termination outcome.
-/

/-- Fixed sample rate from the server config (`SAMPLE_RATE = 16000`). -/
def SAMPLE_RATE : Nat := 16000

/-- Abstract model of the vosk `KaldiRecognizer` engine over an opaque state
type `σ`.  Each operation the server calls is a field; operations that the
engine may abort with a Python exception return `Except String`, carrying the
exception message.  Construction (`KaldiRecognizer`) takes the sample rate
(the global `MODEL` is implicit and fixed). -/
structure KaldiRecognizerModel (σ : Type) where
  KaldiRecognizer : Nat → σ
  SetWords : σ → Bool → σ
  AcceptWaveform : σ → List Nat → Except String (σ × Bool)
  Result : σ → Except String (σ × String)
  PartialResult : σ → Except String (σ × String)
  FinalResult : σ → Except String (σ × String)

/-- A websocket message as the server sees it: a dict that may carry a
`bytes` entry, a `text` entry, both, or neither (the server tests key
presence with `"bytes" in message` / `"text" in message`). -/
structure Message where
  bytes : Option (List Nat)
  text : Option String
deriving DecidableEq

/-- One outcome of `await websocket.receive()`: either a message, or the
receive raising `WebSocketDisconnect` (transport disconnect), or the receive
raising some other exception with the given message. -/
inductive RecvItem where
  | msg (m : Message)
  | disconnect
  | recvError (e : String)
deriving DecidableEq

/-- An outbound event: the server sends `json.dumps` of a dict with a
`type` field (`"partial"`, `"final"` or `"system"`) and a `data` field,
which we keep as the opaque engine result string. -/
structure Event where
  type : String
  data : String
deriving DecidableEq

/-- Event sent on the `final` branch. -/
def finalEvent (d : String) : Event := ⟨"final", d⟩

/-- Event sent on the non-final branch. -/
def partialEvent (d : String) : Event := ⟨"partial", d⟩

/-- Event sent on the reset branch. -/
def systemEvent (d : String) : Event := ⟨"system", d⟩

/-- How the handler left the loop: `endedNormally` after the `break` on
`__end__`, `disconnected` from the `except WebSocketDisconnect` clause,
`errorClosed code reason` from the `except Exception` clause which calls
`websocket.close(code=1011, reason=str(e))`. -/
inductive Outcome where
  | endedNormally
  | disconnected
  | errorClosed (code : Nat) (reason : String)
deriving DecidableEq

/-- Result of processing one received item (and, by extension, of a whole
run): the outbound events sent, the engine state held afterwards, and
`some` outcome when the loop terminated. -/
structure StepResult (σ : Type) where
  events : List Event
  engine : σ
  outcome : Option Outcome

variable {σ : Type}

/-- One iteration of the `while True` loop body of `ws_endpoint`, acting on
the current recognizer `rec` and one received item.  Mirrors lines 45-82 of
`server.py`: the `bytes` branch is checked first, empty data `continue`s,
`AcceptWaveform` decides `final` vs `partial`; the `text` branch handles
`__end__` (flush and break), `__reset__` (fresh
`KaldiRecognizer(MODEL, SAMPLE_RATE)` with `SetWords(True)`), and ignores
anything else; engine exceptions become the 1011 close. -/
def step (E : KaldiRecognizerModel σ) (rec : σ) : RecvItem → StepResult σ
  | .disconnect => ⟨[], rec, some .disconnected⟩
  | .recvError e => ⟨[], rec, some (.errorClosed 1011 e)⟩
  | .msg m =>
    match m.bytes with
    | some data =>
      if data.length = 0 then ⟨[], rec, none⟩
      else
        match E.AcceptWaveform rec data with
        | .error e => ⟨[], rec, some (.errorClosed 1011 e)⟩
        | .ok (rec1, final_ready) =>
          if final_ready then
            match E.Result rec1 with
            | .error e => ⟨[], rec1, some (.errorClosed 1011 e)⟩
            | .ok (rec2, result) => ⟨[finalEvent result], rec2, none⟩
          else
            match E.PartialResult rec1 with
            | .error e => ⟨[], rec1, some (.errorClosed 1011 e)⟩
            | .ok (rec2, partial_json) => ⟨[partialEvent partial_json], rec2, none⟩
    | none =>
      match m.text with
      | some text =>
        if text = "__end__" then
          match E.FinalResult rec with
          | .error e => ⟨[], rec, some (.errorClosed 1011 e)⟩
          | .ok (rec1, final_json) => ⟨[finalEvent final_json], rec1, some .endedNormally⟩
        else if text = "__reset__" then
          ⟨[systemEvent "reset"], E.SetWords (E.KaldiRecognizer SAMPLE_RATE) true, none⟩
        else ⟨[], rec, none⟩
      | none => ⟨[], rec, none⟩

/-- The receive loop of `ws_endpoint`, run over a finite list of received
items.  An item whose step yields a terminal outcome stops the run (later
items are never read); otherwise its events are emitted before the next item
is processed.  An exhausted list with no outcome models a connection still
open, waiting on `receive`. -/
def runLoop (E : KaldiRecognizerModel σ) (rec : σ) : List RecvItem → StepResult σ
  | [] => ⟨[], rec, none⟩
  | item :: rest =>
    let r := step E rec item
    match r.outcome with
    | some _ => r
    | none =>
      let rr := runLoop E r.engine rest
      ⟨r.events ++ rr.events, rr.engine, rr.outcome⟩

/-- The recognizer as configured at connection accept (lines 40-41) and by
`__reset__` (lines 77-78): `KaldiRecognizer(MODEL, SAMPLE_RATE)` followed by
`SetWords(True)`. -/
def newRecognizer (E : KaldiRecognizerModel σ) : σ :=
  E.SetWords (E.KaldiRecognizer SAMPLE_RATE) true

/-- The whole connection handler `ws_endpoint`: accept, create the
recognizer, run the loop on the connection's received items. -/
def ws_endpoint (E : KaldiRecognizerModel σ) (items : List RecvItem) : StepResult σ :=
  runLoop E (newRecognizer E) items

/-- A received binary frame carrying `data`. -/
def audioMsg (data : List Nat) : RecvItem := .msg ⟨some data, none⟩

/-- A received text frame carrying `t`. -/
def textMsg (t : String) : RecvItem := .msg ⟨none, some t⟩

/-- A deterministic test engine used to exercise the model on concrete
inputs: the state records the chunks fed since the last flush, a chunk of
four or more samples closes a segment, and results describe the state. -/
def goodEngine : KaldiRecognizerModel (List (List Nat)) where
  KaldiRecognizer := fun _ => []
  SetWords := fun s _ => s
  AcceptWaveform := fun s data => .ok (data :: s, decide (4 ≤ data.length))
  Result := fun s => .ok ([], "seg" ++ toString s.length)
  PartialResult := fun s => .ok (s, "hyp" ++ toString s.length)
  FinalResult := fun _ => .ok ([], "flushed")

/-- A test engine whose every stateful operation raises. -/
def failEngine : KaldiRecognizerModel Unit where
  KaldiRecognizer := fun _ => ()
  SetWords := fun s _ => s
  AcceptWaveform := fun _ _ => .error "boom"
  Result := fun _ => .error "boom"
  PartialResult := fun _ => .error "boom"
  FinalResult := fun _ => .error "boom"

/-- The per-frame batches of outbound events, in the order the frames were
processed: a terminating frame contributes its (possibly empty) batch and
ends the trace; a non-terminating frame contributes its batch and the trace
continues on the updated engine. -/
def frameTrace (E : KaldiRecognizerModel σ) (rec : σ) : List RecvItem → List (List Event)
  | [] => []
  | item :: rest =>
    let r := step E rec item
    match r.outcome with
    | some _ => [r.events]
    | none => r.events :: frameTrace E r.engine rest

/-- Engine states the handler can legitimately hold: the freshly constructed
recognizer (sample rate `SAMPLE_RATE`, `SetWords true`), closed under the
recognition operations the loop performs.  `SetWords` does not appear as a
closure rule: it is only ever applied at construction. -/
inductive EngineConfigured (E : KaldiRecognizerModel σ) : σ → Prop where
  | fresh : EngineConfigured E (newRecognizer E)
  | accept (s s' : σ) (data : List Nat) (b : Bool) :
      EngineConfigured E s → E.AcceptWaveform s data = .ok (s', b) → EngineConfigured E s'
  | result (s s' : σ) (r : String) :
      EngineConfigured E s → E.Result s = .ok (s', r) → EngineConfigured E s'
  | partialResult (s s' : σ) (r : String) :
      EngineConfigured E s → E.PartialResult s = .ok (s', r) → EngineConfigured E s'
  | finalResult (s s' : σ) (r : String) :
      EngineConfigured E s → E.FinalResult s = .ok (s', r) → EngineConfigured E s'

theorem runLoop_cons (E : KaldiRecognizerModel σ) (rec : σ) (item : RecvItem)
    (rest : List RecvItem) :
    runLoop E rec (item :: rest) =
      match (step E rec item).outcome with
      | some _ => step E rec item
      | none =>
        ⟨(step E rec item).events ++ (runLoop E (step E rec item).engine rest).events,
         (runLoop E (step E rec item).engine rest).engine,
         (runLoop E (step E rec item).engine rest).outcome⟩ := rfl

theorem runLoop_cons_stop (E : KaldiRecognizerModel σ) (rec : σ) (item : RecvItem)
    (rest : List RecvItem) (o : Outcome) (h : (step E rec item).outcome = some o) :
    runLoop E rec (item :: rest) = step E rec item := by
  rw [runLoop_cons, h]

theorem runLoop_cons_go (E : KaldiRecognizerModel σ) (rec : σ) (item : RecvItem)
    (rest : List RecvItem) (h : (step E rec item).outcome = none) :
    runLoop E rec (item :: rest) =
      ⟨(step E rec item).events ++ (runLoop E (step E rec item).engine rest).events,
       (runLoop E (step E rec item).engine rest).engine,
       (runLoop E (step E rec item).engine rest).outcome⟩ := by
  rw [runLoop_cons, h]

theorem step_audio_eq (E : KaldiRecognizerModel σ) (rec : σ) {data : List Nat}
    (hd : data ≠ []) :
    step E rec (audioMsg data) =
      match E.AcceptWaveform rec data with
      | .error e => ⟨[], rec, some (.errorClosed 1011 e)⟩
      | .ok (rec1, final_ready) =>
        if final_ready then
          match E.Result rec1 with
          | .error e => ⟨[], rec1, some (.errorClosed 1011 e)⟩
          | .ok (rec2, result) => ⟨[finalEvent result], rec2, none⟩
        else
          match E.PartialResult rec1 with
          | .error e => ⟨[], rec1, some (.errorClosed 1011 e)⟩
          | .ok (rec2, partial_json) => ⟨[partialEvent partial_json], rec2, none⟩ := by
  have hlen : ¬ data.length = 0 := by simpa [List.length_eq_zero] using hd
  simp [step, audioMsg, hlen]

theorem step_audio_cases (E : KaldiRecognizerModel σ) (rec : σ) {data : List Nat}
    (hd : data ≠ []) :
    (∃ r s, step E rec (audioMsg data) = ⟨[finalEvent r], s, none⟩) ∨
    (∃ r s, step E rec (audioMsg data) = ⟨[partialEvent r], s, none⟩) ∨
    (∃ e s, step E rec (audioMsg data) = ⟨[], s, some (.errorClosed 1011 e)⟩) := by
  rw [step_audio_eq E rec hd]
  rcases hA : E.AcceptWaveform rec data with e | ⟨rec1, fr⟩
  · exact Or.inr (Or.inr ⟨e, rec, rfl⟩)
  · cases fr with
    | false =>
      rcases hP : E.PartialResult rec1 with e | ⟨rec2, p⟩
      · exact Or.inr (Or.inr ⟨e, rec1, by simp [hP]⟩)
      · exact Or.inr (Or.inl ⟨p, rec2, by simp [hP]⟩)
    | true =>
      rcases hR : E.Result rec1 with e | ⟨rec2, r⟩
      · exact Or.inr (Or.inr ⟨e, rec1, by simp [hR]⟩)
      · exact Or.inl ⟨r, rec2, by simp [hR]⟩

theorem step_events_length_le_one (E : KaldiRecognizerModel σ) (rec : σ) (item : RecvItem) :
    (step E rec item).events.length ≤ 1 := by
  cases item with
  | disconnect => simp [step]
  | recvError e => simp [step]
  | msg m =>
    obtain ⟨b, t⟩ := m
    cases b with
    | some data =>
      simp only [step]
      split
      · simp
      · split
        · simp
        · split <;> split <;> simp [finalEvent, partialEvent]
    | none =>
      cases t with
      | some text =>
        simp only [step]
        split
        · split <;> simp [finalEvent]
        · split <;> simp [systemEvent]
      | none => simp [step]

theorem frameTrace_flatten (E : KaldiRecognizerModel σ) (rec : σ) (items : List RecvItem) :
    (runLoop E rec items).events = (frameTrace E rec items).flatten := by
  induction items generalizing rec with
  | nil => rfl
  | cons it rest ih =>
    rw [runLoop_cons]
    simp only [frameTrace]
    cases h : (step E rec it).outcome with
    | some o => simp [h]
    | none => simp [h, ih]

theorem frameTrace_batches (E : KaldiRecognizerModel σ) (rec : σ) (items : List RecvItem) :
    ∀ b ∈ frameTrace E rec items, b.length ≤ 1 := by
  induction items generalizing rec with
  | nil => simp [frameTrace]
  | cons it rest ih =>
    simp only [frameTrace]
    cases h : (step E rec it).outcome with
    | some o => simpa [h] using step_events_length_le_one E rec it
    | none =>
      simp only [h, List.mem_cons]
      rintro b (rfl | hb)
      · exact step_events_length_le_one E rec it
      · exact ih _ b hb

theorem step_configured (E : KaldiRecognizerModel σ) {rec : σ}
    (h : EngineConfigured E rec) (item : RecvItem) :
    EngineConfigured E (step E rec item).engine := by
  cases item with
  | disconnect => exact h
  | recvError e => exact h
  | msg m =>
    obtain ⟨b, t⟩ := m
    cases b with
    | some data =>
      simp only [step]
      split
      · exact h
      · split
        · exact h
        · rename_i rec1 final_ready hA
          split
          · split
            · exact EngineConfigured.accept _ _ _ _ h hA
            · rename_i rec2 r hR
              exact EngineConfigured.result _ _ _ (EngineConfigured.accept _ _ _ _ h hA) hR
          · split
            · exact EngineConfigured.accept _ _ _ _ h hA
            · rename_i rec2 p hP
              exact EngineConfigured.partialResult _ _ _
                (EngineConfigured.accept _ _ _ _ h hA) hP
    | none =>
      cases t with
      | some text =>
        simp only [step]
        split
        · split
          · exact h
          · rename_i rec1 r hF
            exact EngineConfigured.finalResult _ _ _ h hF
        · split
          · exact EngineConfigured.fresh
          · exact h
      | none => exact h

theorem runLoop_configured (E : KaldiRecognizerModel σ) {rec : σ}
    (h : EngineConfigured E rec) (items : List RecvItem) :
    EngineConfigured E (runLoop E rec items).engine := by
  induction items generalizing rec with
  | nil => exact h
  | cons it rest ih =>
    rw [runLoop_cons]
    cases ho : (step E rec it).outcome with
    | some o => exact step_configured E h it
    | none => exact ih (step_configured E h it)

/-- C1: while the connection stays open, every non-empty binary audio frame
produces exactly one outbound event — `final` with the engine `Result` when
`AcceptWaveform` reports a finalized segment, `partial` with `PartialResult`
otherwise — so over any sequence of non-empty audio frames that the loop
survives, the number of emitted events equals the number of frames, with no
merging or dropping, and every event is a `partial` or `final` one.  The
last conjunct states the per-frame branch selection. -/
theorem one_event_per_nonempty_chunk (E : KaldiRecognizerModel σ) (rec : σ)
    (items : List RecvItem)
    (hall : ∀ it ∈ items, ∃ data, it = audioMsg data ∧ data ≠ [])
    (hok : (runLoop E rec items).outcome = none) :
    ((runLoop E rec items).events.length = items.length ∧
      ∀ ev ∈ (runLoop E rec items).events, ev.type = "final" ∨ ev.type = "partial") ∧
    ∀ (s s1 : σ) (data : List Nat) (b : Bool), data ≠ [] →
      E.AcceptWaveform s data = .ok (s1, b) →
      (∀ s2 r, b = true → E.Result s1 = .ok (s2, r) →
        step E s (audioMsg data) = ⟨[finalEvent r], s2, none⟩) ∧
      (∀ s2 r, b = false → E.PartialResult s1 = .ok (s2, r) →
        step E s (audioMsg data) = ⟨[partialEvent r], s2, none⟩) := by
  constructor
  · induction items generalizing rec with
    | nil => exact ⟨rfl, by simp [runLoop]⟩
    | cons it rest ih =>
      obtain ⟨data, rfl, hd⟩ := hall it (List.mem_cons_self it rest)
      have hall' : ∀ it ∈ rest, ∃ data, it = audioMsg data ∧ data ≠ [] :=
        fun it h => hall it (List.mem_cons_of_mem _ h)
      rcases step_audio_cases E rec hd with ⟨r, s, hs⟩ | ⟨r, s, hs⟩ | ⟨e, s, hs⟩
      · have hnone : (step E rec (audioMsg data)).outcome = none := by rw [hs]
        rw [runLoop_cons_go E rec _ rest hnone, hs] at hok ⊢
        simp only at hok
        obtain ⟨ih1, ih2⟩ := ih s hall' hok
        refine ⟨by simp [ih1], ?_⟩
        simp only [List.mem_append]
        rintro ev (hev | hev)
        · simp at hev
          subst hev
          exact Or.inl rfl
        · exact ih2 ev hev
      · have hnone : (step E rec (audioMsg data)).outcome = none := by rw [hs]
        rw [runLoop_cons_go E rec _ rest hnone, hs] at hok ⊢
        simp only at hok
        obtain ⟨ih1, ih2⟩ := ih s hall' hok
        refine ⟨by simp [ih1], ?_⟩
        simp only [List.mem_append]
        rintro ev (hev | hev)
        · simp at hev
          subst hev
          exact Or.inr rfl
        · exact ih2 ev hev
      · have hsome : (step E rec (audioMsg data)).outcome = some (.errorClosed 1011 e) := by
          rw [hs]
        rw [runLoop_cons_stop E rec _ rest _ hsome, hsome] at hok
        simp at hok
  · intro s s1 data b hd hA
    rw [step_audio_eq E s hd] at *
    constructor
    · rintro s2 r rfl hR
      rw [hA]
      simp [hR]
    · rintro s2 r rfl hP
      rw [hA]
      simp [hP]

/-- C1 witness: two non-empty one-sample chunks on the test engine yield a
run with outcome still open, two events, each `partial` or `final`. -/
theorem one_event_per_nonempty_chunk_witness :
    (runLoop goodEngine (newRecognizer goodEngine) [audioMsg [1], audioMsg [2]]).outcome
        = none ∧
    (runLoop goodEngine (newRecognizer goodEngine) [audioMsg [1], audioMsg [2]]).events.length
        = 2 ∧
    ∀ ev ∈ (runLoop goodEngine (newRecognizer goodEngine) [audioMsg [1], audioMsg [2]]).events,
      ev.type = "final" ∨ ev.type = "partial" := by
  have h := one_event_per_nonempty_chunk goodEngine (newRecognizer goodEngine)
    [audioMsg [1], audioMsg [2]]
    (by
      intro it hmem
      rcases List.mem_cons.mp hmem with rfl | h2
      · exact ⟨[1], rfl, by decide⟩
      · rcases List.mem_cons.mp h2 with rfl | h3
        · exact ⟨[2], rfl, by decide⟩
        · exact absurd h3 (List.not_mem_nil it))
    (by decide)
  exact ⟨by decide, h.1.1, h.1.2⟩

/-- C2: `__end__` received in the Open state, with the engine flush
succeeding, sends exactly one `final` event carrying the flushed
`FinalResult` and terminates the loop normally; later frames are never
read.  `rec` is arbitrary, so this covers the zero-audio case. -/
theorem end_control_flushes_one_final (E : KaldiRecognizerModel σ) (rec rec1 : σ)
    (r : String) (rest : List RecvItem)
    (h : E.FinalResult rec = .ok (rec1, r)) :
    runLoop E rec (textMsg "__end__" :: rest) =
      ⟨[finalEvent r], rec1, some .endedNormally⟩ := by
  have hs : step E rec (textMsg "__end__") = ⟨[finalEvent r], rec1, some .endedNormally⟩ := by
    simp [step, textMsg, h]
  rw [runLoop_cons_stop E rec _ rest _ (by rw [hs]), hs]

/-- C2 witness: `__end__` as the very first frame (zero audio fed) on the
test engine emits exactly the flushed final event and ends the loop. -/
theorem end_control_flushes_one_final_witness :
    goodEngine.FinalResult (newRecognizer goodEngine) = .ok ([], "flushed") ∧
    runLoop goodEngine (newRecognizer goodEngine) [textMsg "__end__"] =
      ⟨[finalEvent "flushed"], [], some .endedNormally⟩ :=
  ⟨rfl, end_control_flushes_one_final goodEngine (newRecognizer goodEngine) [] "flushed" [] rfl⟩

/-- C3: `__reset__` at any point installs a recognizer built exactly as at
connection accept (`KaldiRecognizer(MODEL, SAMPLE_RATE)`, `SetWords(True)`),
emits exactly one `system` event with data `"reset"`, and afterwards any
frame sequence produces the same events, engine state and outcome as that
sequence fed to a brand-new connection. -/
theorem reset_installs_fresh_engine (E : KaldiRecognizerModel σ) (rec : σ)
    (rest : List RecvItem) :
    step E rec (textMsg "__reset__") = ⟨[systemEvent "reset"], newRecognizer E, none⟩ ∧
    runLoop E rec (textMsg "__reset__" :: rest) =
      ⟨systemEvent "reset" :: (ws_endpoint E rest).events,
       (ws_endpoint E rest).engine, (ws_endpoint E rest).outcome⟩ := by
  have hs : step E rec (textMsg "__reset__") =
      ⟨[systemEvent "reset"], newRecognizer E, none⟩ := rfl
  refine ⟨hs, ?_⟩
  rw [runLoop_cons_go E rec _ rest (by rw [hs]), hs]
  simp [ws_endpoint]

/-- C4: a zero-length binary frame is a no-op: any run containing one
equals, in events, final engine state and outcome, the run with that frame
removed. -/
theorem empty_chunk_is_noop (E : KaldiRecognizerModel σ) (rec : σ)
    (pre post : List RecvItem) :
    runLoop E rec (pre ++ audioMsg [] :: post) = runLoop E rec (pre ++ post) := by
  induction pre generalizing rec with
  | nil =>
    show runLoop E rec (audioMsg [] :: post) = runLoop E rec post
    rw [runLoop_cons_go E rec (audioMsg []) post rfl]
    rfl
  | cons it pre ih =>
    show runLoop E rec (it :: (pre ++ audioMsg [] :: post)) =
      runLoop E rec (it :: (pre ++ post))
    rw [runLoop_cons, runLoop_cons]
    cases h : (step E rec it).outcome with
    | some o => rfl
    | none => rw [ih]

/-- C5: each processed frame contributes a batch of at most one outbound
event, and the connection's event stream is exactly the concatenation of
those batches in the order the frames were processed — no reordering, no
batching across frames. -/
theorem at_most_one_event_per_frame_in_order (E : KaldiRecognizerModel σ) (rec : σ)
    (items : List RecvItem) :
    (∀ b ∈ frameTrace E rec items, b.length ≤ 1) ∧
    (runLoop E rec items).events = (frameTrace E rec items).flatten :=
  ⟨frameTrace_batches E rec items, frameTrace_flatten E rec items⟩

/-- C6: an engine exception during feed (`AcceptWaveform`, `Result`,
`PartialResult`), during the `__end__` flush (`FinalResult`), or any other
exception in the loop, terminates the connection with close code 1011 and
the exception message as reason, with no event sent from that frame on and
no later frame read. -/
theorem engine_error_closes_1011 (E : KaldiRecognizerModel σ) (rec : σ)
    (rest : List RecvItem) (data : List Nat) (e : String) :
    (data ≠ [] → E.AcceptWaveform rec data = .error e →
      runLoop E rec (audioMsg data :: rest) = ⟨[], rec, some (.errorClosed 1011 e)⟩) ∧
    (∀ rec1, data ≠ [] → E.AcceptWaveform rec data = .ok (rec1, true) →
      E.Result rec1 = .error e →
      runLoop E rec (audioMsg data :: rest) = ⟨[], rec1, some (.errorClosed 1011 e)⟩) ∧
    (∀ rec1, data ≠ [] → E.AcceptWaveform rec data = .ok (rec1, false) →
      E.PartialResult rec1 = .error e →
      runLoop E rec (audioMsg data :: rest) = ⟨[], rec1, some (.errorClosed 1011 e)⟩) ∧
    (E.FinalResult rec = .error e →
      runLoop E rec (textMsg "__end__" :: rest) = ⟨[], rec, some (.errorClosed 1011 e)⟩) ∧
    runLoop E rec (RecvItem.recvError e :: rest) = ⟨[], rec, some (.errorClosed 1011 e)⟩ := by
  refine ⟨?_, ?_, ?_, ?_, ?_⟩
  · intro hd hA
    have hs : step E rec (audioMsg data) = ⟨[], rec, some (.errorClosed 1011 e)⟩ := by
      rw [step_audio_eq E rec hd, hA]
    rw [runLoop_cons_stop E rec _ rest _ (by rw [hs]), hs]
  · intro rec1 hd hA hR
    have hs : step E rec (audioMsg data) = ⟨[], rec1, some (.errorClosed 1011 e)⟩ := by
      rw [step_audio_eq E rec hd, hA]
      simp [hR]
    rw [runLoop_cons_stop E rec _ rest _ (by rw [hs]), hs]
  · intro rec1 hd hA hP
    have hs : step E rec (audioMsg data) = ⟨[], rec1, some (.errorClosed 1011 e)⟩ := by
      rw [step_audio_eq E rec hd, hA]
      simp [hP]
    rw [runLoop_cons_stop E rec _ rest _ (by rw [hs]), hs]
  · intro hF
    have hs : step E rec (textMsg "__end__") = ⟨[], rec, some (.errorClosed 1011 e)⟩ := by
      simp [step, textMsg, hF]
    rw [runLoop_cons_stop E rec _ rest _ (by rw [hs]), hs]
  · rfl

/-- C6 witness: on the always-raising engine, a non-empty chunk closes the
connection with code 1011 and the raised message, sending nothing. -/
theorem engine_error_closes_1011_witness :
    (([1] : List Nat) ≠ []) ∧ failEngine.AcceptWaveform () [1] = .error "boom" ∧
    runLoop failEngine () [audioMsg [1]] = ⟨[], (), some (.errorClosed 1011 "boom")⟩ :=
  ⟨by decide, rfl, (engine_error_closes_1011 failEngine () [] [1] "boom").1 (by decide) rfl⟩

/-- C7: a transport disconnect (the receive raising `WebSocketDisconnect`)
tears the connection down silently: no event is emitted, no error close is
performed, and the loop stops with the engine state untouched. -/
theorem disconnect_silent_teardown (E : KaldiRecognizerModel σ) (rec : σ)
    (rest : List RecvItem) :
    runLoop E rec (RecvItem.disconnect :: rest) = ⟨[], rec, some .disconnected⟩ := rfl

/-- C8: any text frame other than `__end__` and `__reset__` is silently
ignored: the run equals the run with that frame removed (no events, no
engine change, no termination). -/
theorem unrecognized_text_ignored (E : KaldiRecognizerModel σ) (rec : σ)
    (t : String) (rest : List RecvItem)
    (h1 : t ≠ "__end__") (h2 : t ≠ "__reset__") :
    runLoop E rec (textMsg t :: rest) = runLoop E rec rest := by
  have hs : step E rec (textMsg t) = ⟨[], rec, none⟩ := by
    simp [step, textMsg, h1, h2]
  rw [runLoop_cons_go E rec _ rest (by rw [hs]), hs]
  simp

/-- C8 witness: the text frame `"foo"` before an `__end__` changes nothing. -/
theorem unrecognized_text_ignored_witness :
    ("foo" ≠ "__end__") ∧ ("foo" ≠ "__reset__") ∧
    runLoop goodEngine (newRecognizer goodEngine) [textMsg "foo", textMsg "__end__"] =
      runLoop goodEngine (newRecognizer goodEngine) [textMsg "__end__"] :=
  ⟨by decide, by decide,
    unrecognized_text_ignored goodEngine (newRecognizer goodEngine) "foo"
      [textMsg "__end__"] (by decide) (by decide)⟩

/-- C9: every engine state the handler holds over the whole connection —
initial creation and every `__reset__` replacement included — lies in
`EngineConfigured`: generated from `KaldiRecognizer(MODEL, SAMPLE_RATE)`
(16000 Hz) with `SetWords(True)` applied once at construction, and evolved
only by recognition operations, never by another `SetWords`. -/
theorem engine_always_configured_16k_words (E : KaldiRecognizerModel σ)
    (items : List RecvItem) :
    EngineConfigured E (ws_endpoint E items).engine :=
  runLoop_configured E EngineConfigured.fresh items

/-- C10: a message carrying both a binary and a text payload is handled
exactly as the pure audio message (the text is ignored), and a message
carrying neither payload is skipped entirely — the run equals the run
without it. -/
theorem classification_bytes_over_text (E : KaldiRecognizerModel σ) (rec : σ)
    (data : List Nat) (t : String) (rest : List RecvItem) :
    runLoop E rec (RecvItem.msg ⟨some data, some t⟩ :: rest) =
      runLoop E rec (audioMsg data :: rest) ∧
    runLoop E rec (RecvItem.msg ⟨none, none⟩ :: rest) = runLoop E rec rest := by
  constructor
  · rfl
  · rw [runLoop_cons_go E rec (RecvItem.msg ⟨none, none⟩) rest rfl]
    rfl
